import Mathlib

/-!
Shallow embedding of the client-side dashboard core of
src/static/js/dashboard-utils.js: the reconnect state machine of the video
stream (attemptReconnect and its handlers), the two polling channels started
by startRefreshTimers, the visibility coordinator, the recent-events feed
synchronizer with its display projection, and the StatusManager indicator
updates. Asynchrony is modelled by explicit event traces consumed by step
functions; network completions are inputs to the functions that consume them.
-/

set_option autoImplicit false

namespace NewaySecurity

/-- The configuration object NewaySecurity.config (lines 11-16 of the source):
refresh interval for the events poll, status-check interval, maximum reconnect
attempts and the backoff base delay, all in milliseconds except the attempt
count. -/
structure Config where
  refreshInterval : Nat
  statusCheckInterval : Nat
  reconnectAttempts : Nat
  timeoutDelay : Nat
deriving DecidableEq

/-- The default configuration values from the source. -/
def config : Config :=
  { refreshInterval := 30000
    statusCheckInterval := 60000
    reconnectAttempts := 3
    timeoutDelay := 2000 }

/-! ## Reconnect sequence (attemptReconnect, lines 202-235)

One call to attemptReconnect creates a closure with a local attempts counter
starting at 0 and runs tryReconnect. Observable actions of the sequence are
recorded in a trace: reloading the media source with a fresh cache-busting
token, arming the single-shot backoff timer (with its delay), and the terminal
failure message logged when the attempt budget is exhausted. The environment
is a function giving the value of state.cameraConnected at the moment the
k-th armed timer of the sequence fires. -/

/-- Observable actions of a reconnect sequence. -/
inductive ReconnectAction where
  | reload
  | armTimer (delay : Nat)
  | failSignal
deriving DecidableEq

/-- Recogniser for the reload action. -/
def isReload : ReconnectAction → Bool
  | .reload => true
  | _ => false

/-- Recogniser for the timer-arming action. -/
def isArmTimer : ReconnectAction → Bool
  | .armTimer _ => true
  | _ => false

/-- Recogniser for the terminal failure signal. -/
def isFailSignal : ReconnectAction → Bool
  | .failSignal => true
  | _ => false

/-- Structural core of tryReconnect. The source guard
(attempts >= reconnectAttempts, line 206) is carried as the remaining attempt
budget, kept equal to reconnectAttempts - attempts by the wrapper below;
remaining = 0 is exactly the exhausted case, which logs the failure and
returns. Otherwise attempts is incremented, the stream source is reloaded with
a cache-busting token, and a single-shot timer of timeoutDelay * attempts
milliseconds is armed (line 230); its callback re-enters the sequence only
when the camera is still not connected when it fires. -/
def tryReconnectAux (cfg : Config) (connected : Nat → Bool) :
    Nat → Nat → Nat → List ReconnectAction
  | 0, _, _ => [.failSignal]
  | remaining + 1, attempts, fire =>
      .reload :: .armTimer (cfg.timeoutDelay * (attempts + 1)) ::
        (if connected fire then []
         else tryReconnectAux cfg connected remaining (attempts + 1) (fire + 1))

/-- The tryReconnect closure body, entered with the current value of its
attempts counter; fire indexes the timer expiries of this sequence into the
connectivity environment. -/
def tryReconnect (cfg : Config) (connected : Nat → Bool)
    (attempts fire : Nat) : List ReconnectAction :=
  tryReconnectAux cfg connected (cfg.reconnectAttempts - attempts) attempts fire

/-- attemptReconnect (line 202): starts one sequence with the local attempts
counter at 0. -/
def attemptReconnect (cfg : Config) (connected : Nat → Bool) :
    List ReconnectAction :=
  tryReconnect cfg connected 0 0

/-- The setTimeout callback armed by tryReconnect (lines 226-230): when it
fires it consults state.cameraConnected; when connected it does nothing at
all, otherwise it re-enters tryReconnect with the closure attempts counter. -/
def onReconnectTimerExpiry (cfg : Config) (connected : Nat → Bool)
    (attempts fire : Nat) : List ReconnectAction :=
  if connected fire then [] else tryReconnect cfg connected attempts (fire + 1)

/-- Environment in which the camera never reconnects: every timer expiry sees
state.cameraConnected = false. -/
def neverConnected : Nat → Bool := fun _ => false

/-- The delays of the timers armed along a reconnect trace, in order. -/
def armedDelays (tr : List ReconnectAction) : List Nat :=
  tr.filterMap fun a =>
    match a with
    | .armTimer d => some d
    | _ => none

/-- Expected actions of n consecutive failing attempts, the first one being
attempt a + 1: each attempt reloads the stream and arms its backoff timer.
Used to characterise the trace of an exhausted sequence. -/
def attemptActions (cfg : Config) : Nat → Nat → List ReconnectAction
  | 0, _ => []
  | n + 1, a =>
      .reload :: .armTimer (cfg.timeoutDelay * (a + 1)) ::
        attemptActions cfg n (a + 1)

/-! ## Connection monitor as an event machine (handleVideoError,
handleVideoLoad, and the reconnect timer callbacks)

Each call to attemptReconnect creates a fresh closure with its own attempts
counter; at any moment a live sequence is represented by its pending timer,
recorded as the attempts value that the closure will see when the timer
fires. handleVideoError (lines 142-149) clears cameraConnected and then
unconditionally calls attemptReconnect; handleVideoLoad (lines 154-158) sets
cameraConnected and cancels nothing. The camera-indicator side effects of the
two handlers are modelled by the StatusManager functions further below. -/

/-- Monitor state: state.cameraConnected plus the pending reconnect timers of
all live sequences. -/
structure MonitorState where
  cameraConnected : Bool
  pendingTimers : List Nat
deriving DecidableEq

/-- Events delivered to the monitor: a stream error, a successful stream
load, or the expiry of the i-th pending reconnect timer. -/
inductive MonitorEvent where
  | streamError
  | streamLoad
  | timerFire (i : Nat)
deriving DecidableEq

/-- Initial monitor state: stream up, no reconnect sequence started. -/
def monitorInit : MonitorState :=
  { cameraConnected := true, pendingTimers := [] }

/-- One event-loop step of the monitor, returning the next state and the
reconnect actions performed synchronously during the step. A stream error
starts a fresh sequence (first attempt runs immediately: reload, arm timer of
timeoutDelay * 1, pending counter 1); a stream load only flips
cameraConnected; a timer expiry removes the fired timer and, when the camera
is still down, runs the next tryReconnect step of that closure. -/
def monitorStep (cfg : Config) (s : MonitorState) :
    MonitorEvent → MonitorState × List ReconnectAction
  | .streamError =>
      if cfg.reconnectAttempts = 0 then
        ({ cameraConnected := false, pendingTimers := s.pendingTimers },
          [.failSignal])
      else
        ({ cameraConnected := false, pendingTimers := s.pendingTimers ++ [1] },
          [.reload, .armTimer (cfg.timeoutDelay * 1)])
  | .streamLoad =>
      ({ s with cameraConnected := true }, [])
  | .timerFire i =>
      match s.pendingTimers.get? i with
      | none => (s, [])
      | some a =>
          let rest := s.pendingTimers.eraseIdx i
          if s.cameraConnected then
            ({ s with pendingTimers := rest }, [])
          else if cfg.reconnectAttempts ≤ a then
            ({ s with pendingTimers := rest }, [.failSignal])
          else
            ({ s with pendingTimers := rest ++ [a + 1] },
              [.reload, .armTimer (cfg.timeoutDelay * (a + 1))])

/-- Run the monitor over a list of events, accumulating the actions. -/
def runMonitor (cfg : Config) :
    MonitorState → List MonitorEvent → MonitorState × List ReconnectAction
  | s, [] => (s, [])
  | s, e :: es =>
      let step := monitorStep cfg s e
      let rest := runMonitor cfg step.1 es
      (rest.1, step.2 ++ rest.2)

/-! ## Polling channels (startRefreshTimers, lines 106-116)

startRefreshTimers arms two setInterval callbacks that invoke
refreshRecentEvents and StatusManager.checkStatus; neither callback consults
any outstanding-request flag (none exists in the source), so every tick
issues a fetch: the events tick whenever the cached recent-events element
exists (the only early return in refreshRecentEvents, line 241), the status
tick unconditionally. The step functions below count the in-flight requests
of one channel along a trace of ticks and response completions. -/

/-- A poll-channel trace event: an interval tick, or the completion of one
outstanding request. -/
inductive PollEvent where
  | tick
  | complete
deriving DecidableEq

/-- In-flight update of the events channel for one trace event. -/
def eventsChannelStep (hasRecentEventsElement : Bool) (outstanding : Nat) :
    PollEvent → Nat
  | .tick => if hasRecentEventsElement then outstanding + 1 else outstanding
  | .complete => outstanding - 1

/-- Number of in-flight events-channel requests after a trace. -/
def eventsChannelInFlight (hasRecentEventsElement : Bool)
    (tr : List PollEvent) : Nat :=
  tr.foldl (eventsChannelStep hasRecentEventsElement) 0

/-- In-flight update of the status channel for one trace event. -/
def statusChannelStep (outstanding : Nat) : PollEvent → Nat
  | .tick => outstanding + 1
  | .complete => outstanding - 1

/-- Number of in-flight status-channel requests after a trace. -/
def statusChannelInFlight (tr : List PollEvent) : Nat :=
  tr.foldl statusChannelStep 0

/-! ## Visibility coordinator (handleVisibilityChange, lines 191-197)

The two interval timers armed by startRefreshTimers are recorded as active
flags; the source keeps no handle to either interval and contains no
clearInterval call, so no event can deactivate them. handleVisibilityChange
reads document.hidden (modelled as state updated by the visibility event
itself) and, only when the page became visible, calls refreshRecentEvents and
StatusManager.checkStatus once each; when the page became hidden it does
nothing. -/

/-- Coordinator state: document.hidden plus whether each interval timer from
startRefreshTimers is armed. -/
structure CoordState where
  hidden : Bool
  eventsTimerActive : Bool
  statusTimerActive : Bool
deriving DecidableEq

/-- Events delivered to the coordinator: a visibilitychange notification
(carrying the new document.hidden), or one of the two interval ticks. -/
inductive CoordEvent where
  | visibilityChange (nowHidden : Bool)
  | eventsTick
  | statusTick
deriving DecidableEq

/-- Immediate synchronization calls issued by a coordinator step. -/
inductive CoordAction where
  | callRefreshRecentEvents
  | callCheckStatus
deriving DecidableEq

/-- startRefreshTimers (lines 106-116): arms both interval timers; the
handles are discarded. -/
def startRefreshTimers (s : CoordState) : CoordState :=
  { s with eventsTimerActive := true, statusTimerActive := true }

/-- handleVisibilityChange (lines 191-197). -/
def handleVisibilityChange (s : CoordState) (nowHidden : Bool) :
    CoordState × List CoordAction :=
  ({ s with hidden := nowHidden },
    if nowHidden then [] else [.callRefreshRecentEvents, .callCheckStatus])

/-- One coordinator step. The interval ticks fire on their own schedule
regardless of visibility: the source never cancels them, so their callbacks
run and call the respective refresh unconditionally. -/
def coordStep (s : CoordState) : CoordEvent → CoordState × List CoordAction
  | .visibilityChange h => handleVisibilityChange s h
  | .eventsTick => (s, [.callRefreshRecentEvents])
  | .statusTick => (s, [.callCheckStatus])

/-! ## Event feed synchronizer (refreshRecentEvents, lines 240-258, and
updateRecentEventsDisplay, lines 263-301)

An event record carries Name, Date, Time and Event (the direction string) as
in the /api/logs response. The source parses Date plus Time into a JS Date
and classifies the record as today by comparing toDateString with the
current moment; a date string is modelled as a structured calendar date, so
the toDateString comparison becomes calendar-date equality, and the locale
time / locale date-time formatting is modelled by the record time string and
a canonical date rendering. -/

/-- A calendar date, the date portion of a JS Date. -/
structure CalDate where
  year : Nat
  month : Nat
  day : Nat
deriving DecidableEq

/-- Canonical rendering of a calendar date, standing in for the locale
date-time formatting of a non-today record. -/
def calDateString (d : CalDate) : String :=
  toString d.year ++ "-" ++ toString d.month ++ "-" ++ toString d.day

/-- One record of the /api/logs events array: Name, Date, Time, Event. -/
structure EventRecord where
  name : String
  date : CalDate
  time : String
  event : String
deriving DecidableEq

/-- The badge rendered for one record: its CSS class and its text. -/
structure Badge where
  cssClass : String
  text : String
deriving DecidableEq

/-- One rendered feed item: the formatted time line, the name line, and the
direction badge. -/
structure RenderedItem where
  timeStr : String
  name : String
  badge : Badge
deriving DecidableEq

/-- Rendering of one record (the forEach body of updateRecentEventsDisplay,
lines 270-295): a record whose date portion equals the current date renders a
time-only Today label, otherwise a full date-time label; the badge is
bg-success "Clock In" exactly when Event equals "IN" and bg-secondary
"Clock Out" for every other value. -/
def renderEvent (now : CalDate) (e : EventRecord) : RenderedItem :=
  { timeStr :=
      if e.date = now then "Today, " ++ e.time
      else calDateString e.date ++ ", " ++ e.time
    name := e.name
    badge :=
      { cssClass := if e.event = "IN" then "bg-success" else "bg-secondary"
        text := if e.event = "IN" then "Clock In" else "Clock Out" } }

/-- Presence of the cached DOM elements consulted by the feed code:
elements.recentEvents and elements.recognitionCount. -/
structure Elements where
  recentEvents : Bool
  recognitionCount : Bool
deriving DecidableEq

/-- The rendered side of the feed: the list of items inside the
recent-events container and the recognition counter text. -/
structure Display where
  feed : List RenderedItem
  recognitionCount : Nat
deriving DecidableEq

/-- updateRecentEventsDisplay (lines 263-301): returns the display unchanged
when the container element is missing, the events argument is null, or the
events list is empty; otherwise clears the container, renders every record,
and sets the recognition counter to the number of events when that element
exists. -/
def updateRecentEventsDisplay (els : Elements) (now : CalDate)
    (events : Option (List EventRecord)) (disp : Display) : Display :=
  if !els.recentEvents then disp
  else
    match events with
    | none => disp
    | some evs =>
        if evs.isEmpty then disp
        else
          { feed := evs.map (renderEvent now)
            recognitionCount :=
              if els.recognitionCount then evs.length
              else disp.recognitionCount }

/-- Outcome of the /api/logs fetch as seen by the handlers: the promise chain
rejected (network error or invalid JSON, landing in the catch handler), or a
parsed response with its success flag and events array. -/
inductive LogsFetchResult where
  | rejected
  | response (success : Bool) (events : List EventRecord)
deriving DecidableEq

/-- refreshRecentEvents (lines 240-258) applied to the outcome of its fetch:
returns the new stored state.recentEvents and the new display. It returns
early when the container element is missing (no fetch is issued); on a
rejected fetch the catch handler only logs, leaving state and display
untouched; on a response it updates state and display only when success is
true, and a non-success response changes nothing. -/
def refreshRecentEvents (els : Elements) (now : CalDate)
    (res : LogsFetchResult) (stored : List EventRecord) (disp : Display) :
    List EventRecord × Display :=
  if !els.recentEvents then (stored, disp)
  else
    match res with
    | .rejected => (stored, disp)
    | .response success evs =>
        if success then (evs, updateRecentEventsDisplay els now (some evs) disp)
        else (stored, disp)

/-! ## StatusManager (lines 306-411)

The indicator elements are optional (each update returns early when its
element is missing). The system indicator keeps at most one of the classes
status-online, status-warning, status-offline plus a title; the camera and
network indicators keep an online flag plus a title. updateSystemStatus is
called with data.status (a string) on success but with the boolean false from
the catch handler, so its argument is modelled as a JS value that is either a
string or a boolean; its switch compares against the three string literals
and has no default case. -/

/-- A JS value passed to updateSystemStatus: a string or a boolean. -/
inductive JSVal where
  | str (s : String)
  | bool (b : Bool)
deriving DecidableEq

/-- The status class kept on the system indicator. -/
inductive SysClass where
  | online
  | warning
  | offline
deriving DecidableEq

/-- The system indicator element: its current status class, when any, and
its title attribute. -/
structure SystemIndicator where
  cls : Option SysClass
  title : String
deriving DecidableEq

/-- A two-state indicator element (camera, network): online class flag and
title attribute. -/
structure BinaryIndicator where
  online : Bool
  title : String
deriving DecidableEq

/-- The three indicator elements found by StatusManager.init, each possibly
missing from the page. -/
structure Indicators where
  camera : Option BinaryIndicator
  system : Option SystemIndicator
  network : Option BinaryIndicator
deriving DecidableEq

namespace StatusManager

/-- updateCameraStatus (lines 357-369). -/
def updateCameraStatus (isConnected : Bool) (inds : Indicators) : Indicators :=
  match inds.camera with
  | none => inds
  | some _ =>
      if isConnected then
        { inds with camera := some { online := true, title := "Camera Connected" } }
      else
        { inds with camera := some { online := false, title := "Camera Disconnected" } }

/-- updateSystemStatus (lines 374-393): removes all three status classes,
then switches on the argument; only the three string literals have cases,
so any other value (in particular the boolean false passed by the catch
handler of checkStatus) leaves the indicator with no status class and its
title unchanged. -/
def updateSystemStatus (status : JSVal) (inds : Indicators) : Indicators :=
  match inds.system with
  | none => inds
  | some ind =>
      match status with
      | .str "online" =>
          { inds with system := some { cls := some .online, title := "System Online" } }
      | .str "warning" =>
          { inds with system := some { cls := some .warning, title := "System Warning" } }
      | .str "offline" =>
          { inds with system := some { cls := some .offline, title := "System Offline" } }
      | _ => { inds with system := some { ind with cls := none } }

/-- updateNetworkStatus (lines 398-410). -/
def updateNetworkStatus (status : Bool) (inds : Indicators) : Indicators :=
  match inds.network with
  | none => inds
  | some _ =>
      if status then
        { inds with network := some { online := true, title := "Network Connected" } }
      else
        { inds with network := some { online := false, title := "Network Disconnected" } }

/-- Outcome of the /api/status fetch: rejected (landing in the catch
handler), or a parsed response with success flag, status string and network
flag. -/
inductive StatusFetchResult where
  | rejected
  | response (success : Bool) (status : String) (network : Bool)
deriving DecidableEq

/-- checkStatus (lines 334-352): first re-emits the current camera state,
then applies the fetch outcome. On success it forwards data.status and
data.network; when success is false nothing further happens; the catch
handler calls updateSystemStatus(false) and updateNetworkStatus(false). -/
def checkStatus (cameraConnected : Bool) (res : StatusFetchResult)
    (inds : Indicators) : Indicators :=
  let inds := updateCameraStatus cameraConnected inds
  match res with
  | .rejected => updateNetworkStatus false (updateSystemStatus (.bool false) inds)
  | .response success status network =>
      if success then updateNetworkStatus network (updateSystemStatus (.str status) inds)
      else inds

end StatusManager

/-! ## Concrete sample values used by witnesses and counterexamples -/

/-- A sample calendar date standing for the current local date. -/
def sampleDate : CalDate := { year := 2026, month := 10, day := 11 }

/-- An earlier calendar date. -/
def earlierDate : CalDate := { year := 2026, month := 9, day := 30 }

/-- A record whose direction string is neither "IN" nor "OUT". -/
def recUnknown : EventRecord :=
  { name := "J. Doe", date := sampleDate, time := "08:15:00", event := "UNKNOWN" }

/-- A record with direction "OUT". -/
def recOut : EventRecord :=
  { name := "J. Doe", date := sampleDate, time := "08:15:00", event := "OUT" }

/-- A display currently showing one rendered item. -/
def dispSample : Display :=
  { feed := [renderEvent sampleDate recOut], recognitionCount := 1 }

/-- Indicators that all exist and currently show everything healthy. -/
def indsOnline : Indicators :=
  { camera := some { online := true, title := "Camera Connected" }
    system := some { cls := some .online, title := "System Online" }
    network := some { online := true, title := "Network Connected" } }

/-- Coordinator state right after init has armed both interval timers. -/
def coordStart : CoordState :=
  startRefreshTimers { hidden := false, eventsTimerActive := false, statusTimerActive := false }

/-- Coordinator state after the page has gone hidden. -/
def coordHidden : CoordState :=
  (coordStep coordStart (CoordEvent.visibilityChange true)).1

/-! ## Helper lemmas -/

/-- When the camera never comes back, a tryReconnect run from any attempts
value performs one attempt per unit of remaining budget and then fails. -/
theorem tryReconnectAux_neverConnected (cfg : Config) :
    ∀ (n a f : Nat), tryReconnectAux cfg neverConnected n a f
      = attemptActions cfg n a ++ [ReconnectAction.failSignal] := by
  intro n
  induction n with
  | zero => intro a f; rfl
  | succ n ih =>
      intro a f
      simp [tryReconnectAux, attemptActions, neverConnected, ih]

/-- The k-th timer delay of n consecutive failing attempts starting after
attempt a is timeoutDelay * (a + 1 + k). -/
theorem armedDelays_attemptActions_get (cfg : Config) :
    ∀ (n a k : Nat), k < n →
      (armedDelays (attemptActions cfg n a)).get? k
        = some (cfg.timeoutDelay * (a + 1 + k)) := by
  intro n
  induction n with
  | zero => intro a k hk; omega
  | succ n ih =>
      intro a k hk
      have harm : armedDelays (attemptActions cfg (n + 1) a)
          = cfg.timeoutDelay * (a + 1) :: armedDelays (attemptActions cfg n (a + 1)) := by
        simp [attemptActions, armedDelays]
      cases k with
      | zero => rw [harm]; simp
      | succ k =>
          have h := ih (a + 1) k (by omega)
          rw [harm]
          simp only [List.get?_cons_succ]
          rw [h]
          have h3 : a + 1 + 1 + k = a + 1 + (k + 1) := by omega
          rw [h3]

/-- Number of reloads performed by n consecutive failing attempts. -/
theorem countP_attemptActions_reload (cfg : Config) :
    ∀ (n a : Nat), (attemptActions cfg n a).countP isReload = n := by
  intro n
  induction n with
  | zero => intro a; rfl
  | succ n ih => intro a; simp [attemptActions, List.countP_cons, isReload, ih]

/-- Number of timers armed by n consecutive failing attempts. -/
theorem countP_attemptActions_arm (cfg : Config) :
    ∀ (n a : Nat), (attemptActions cfg n a).countP isArmTimer = n := by
  intro n
  induction n with
  | zero => intro a; rfl
  | succ n ih => intro a; simp [attemptActions, List.countP_cons, isArmTimer, ih]

/-- The attempt part of a failing sequence emits no failure signal. -/
theorem countP_attemptActions_fail (cfg : Config) :
    ∀ (n a : Nat), (attemptActions cfg n a).countP isFailSignal = 0 := by
  intro n
  induction n with
  | zero => intro a; rfl
  | succ n ih => intro a; simp [attemptActions, List.countP_cons, isFailSignal, ih]

/-- Closed form of a full reconnect sequence that never reconnects. -/
theorem attemptReconnect_neverConnected (cfg : Config) :
    attemptReconnect cfg neverConnected
      = attemptActions cfg cfg.reconnectAttempts 0 ++ [ReconnectAction.failSignal] := by
  have h := tryReconnectAux_neverConnected cfg cfg.reconnectAttempts 0 0
  simpa [attemptReconnect, tryReconnect] using h

/-- Stream errors accumulate pending reconnect timers: the monitor never
consults existing sequences before spawning a new one. -/
theorem runMonitor_replicate_streamError :
    ∀ (n : Nat) (b : Bool) (ts : List Nat),
      (runMonitor config { cameraConnected := b, pendingTimers := ts }
          (List.replicate n MonitorEvent.streamError)).1.pendingTimers
        = ts ++ List.replicate n 1 := by
  intro n
  induction n with
  | zero => intro b ts; simp [runMonitor]
  | succ n ih =>
      intro b ts
      have hne : ¬ (config.reconnectAttempts = 0) := by decide
      rw [List.replicate_succ]
      simp only [runMonitor, monitorStep, if_neg hne]
      rw [ih false (ts ++ [1])]
      simp [List.replicate_succ]

/-- Ticks of the events interval each add one in-flight request when the
container element exists. -/
theorem foldl_eventsChannelStep_ticks :
    ∀ (n s : Nat),
      List.foldl (eventsChannelStep true) s (List.replicate n PollEvent.tick) = s + n := by
  intro n
  induction n with
  | zero => intro s; simp
  | succ n ih =>
      intro s
      rw [List.replicate_succ]
      simp only [List.foldl_cons, eventsChannelStep]
      simp only [if_true]
      rw [ih (s + 1)]
      omega

/-- Ticks of the status interval each add one in-flight request. -/
theorem foldl_statusChannelStep_ticks :
    ∀ (n s : Nat),
      List.foldl statusChannelStep s (List.replicate n PollEvent.tick) = s + n := by
  intro n
  induction n with
  | zero => intro s; simp
  | succ n ih =>
      intro s
      rw [List.replicate_succ]
      simp only [List.foldl_cons, statusChannelStep]
      rw [ih (s + 1)]
      omega

/-! ## Claim theorems -/

/-- C1 counterexample: the claim that a poll tick firing while a request of
the same channel is outstanding issues no new request is false. Two
consecutive ticks with no completion in between leave two requests in flight
on each channel, violating the claimed at-most-one bound. -/
theorem poll_tick_not_skipped :
    eventsChannelInFlight true [PollEvent.tick, PollEvent.tick] = 2
  ∧ statusChannelInFlight [PollEvent.tick, PollEvent.tick] = 2
  ∧ ¬ eventsChannelInFlight true [PollEvent.tick, PollEvent.tick] ≤ 1
  ∧ ¬ statusChannelInFlight [PollEvent.tick, PollEvent.tick] ≤ 1 := by
  decide

/-- C1 amended: no per-channel in-flight guard exists. Every poll tick issues
a new request (events channel: whenever the recent-events element exists;
status channel: unconditionally), so n ticks with no intervening completions
leave n requests in flight on each channel; a tick is never skipped because
of an outstanding request. -/
theorem poll_ticks_accumulate (n : Nat) :
    eventsChannelInFlight true (List.replicate n PollEvent.tick) = n
  ∧ statusChannelInFlight (List.replicate n PollEvent.tick) = n := by
  constructor
  · have h := foldl_eventsChannelStep_ticks n 0
    simpa [eventsChannelInFlight] using h
  · have h := foldl_statusChannelStep_ticks n 0
    simpa [statusChannelInFlight] using h

/-- C2: in one reconnect sequence, the timer armed after attempt k has delay
exactly timeoutDelay * k for every k in [1, maxAttempts]; with the default
configuration the delays are 2000, 4000, 6000 ms. -/
theorem reconnect_backoff_delays :
    (∀ (cfg : Config) (k : Nat), 1 ≤ k → k ≤ cfg.reconnectAttempts →
        (armedDelays (attemptReconnect cfg neverConnected)).get? (k - 1)
          = some (cfg.timeoutDelay * k))
  ∧ armedDelays (attemptReconnect config neverConnected) = [2000, 4000, 6000] := by
  constructor
  · intro cfg k h1 h2
    rw [attemptReconnect_neverConnected cfg]
    have happ :
        armedDelays (attemptActions cfg cfg.reconnectAttempts 0
            ++ [ReconnectAction.failSignal])
          = armedDelays (attemptActions cfg cfg.reconnectAttempts 0) := by
      simp [armedDelays]
    rw [happ]
    have hget := armedDelays_attemptActions_get cfg cfg.reconnectAttempts 0 (k - 1) (by omega)
    have hk : 0 + 1 + (k - 1) = k := by omega
    rw [hk] at hget
    exact hget
  · decide

/-- C2 witness: with the default configuration, the timer armed after the
second attempt has delay 4000 ms. -/
theorem reconnect_backoff_delays_witness :
    (armedDelays (attemptReconnect config neverConnected)).get? 1 = some 4000 := by
  have h := reconnect_backoff_delays.1 config 2 (by decide) (by decide)
  simpa [config] using h

/-- C3: after exactly maxAttempts attempts of one sequence with the camera
never reconnecting, the sequence is terminal: its whole trace is the
maxAttempts attempts (each one reload and one armed timer) followed by a
single failure signal, after which nothing further happens — no further timer
is armed and no further reload is performed. With the default configuration
the trace is fully explicit. -/
theorem reconnect_exhausts_then_fails :
    (∀ cfg : Config,
        attemptReconnect cfg neverConnected
            = attemptActions cfg cfg.reconnectAttempts 0 ++ [ReconnectAction.failSignal]
        ∧ (attemptActions cfg cfg.reconnectAttempts 0).countP isReload
            = cfg.reconnectAttempts
        ∧ (attemptActions cfg cfg.reconnectAttempts 0).countP isArmTimer
            = cfg.reconnectAttempts
        ∧ (attemptActions cfg cfg.reconnectAttempts 0).countP isFailSignal = 0)
  ∧ attemptReconnect config neverConnected
      = [.reload, .armTimer 2000, .reload, .armTimer 4000,
         .reload, .armTimer 6000, .failSignal] := by
  constructor
  · intro cfg
    exact ⟨attemptReconnect_neverConnected cfg,
      countP_attemptActions_reload cfg cfg.reconnectAttempts 0,
      countP_attemptActions_arm cfg cfg.reconnectAttempts 0,
      countP_attemptActions_fail cfg cfg.reconnectAttempts 0⟩
  · decide

/-- C4 counterexample: the claim that a stream error arriving while a retry
sequence is in flight starts no second sequence is false. Two consecutive
stream errors leave two pending reconnect timers, each belonging to a
distinct closure with its own attempts counter at 1, and two reloads were
issued. -/
theorem second_error_spawns_parallel_sequence :
    (runMonitor config monitorInit
        [MonitorEvent.streamError, MonitorEvent.streamError]).1.pendingTimers = [1, 1]
  ∧ ¬ (runMonitor config monitorInit
        [MonitorEvent.streamError, MonitorEvent.streamError]).1.pendingTimers.length ≤ 1
  ∧ (runMonitor config monitorInit
        [MonitorEvent.streamError, MonitorEvent.streamError]).2.countP isReload = 2 := by
  decide

/-- C4 amended: handleVideoError performs no Connecting-state check and
unconditionally calls attemptReconnect, so every stream error spawns a fresh
retry sequence with its own attempts counter: n consecutive stream errors
leave n parallel pending reconnect timers, each with counter 1. -/
theorem stream_errors_spawn_parallel_sequences (n : Nat) :
    (runMonitor config monitorInit
        (List.replicate n MonitorEvent.streamError)).1.pendingTimers
      = List.replicate n 1 := by
  have h := runMonitor_replicate_streamError n true []
  simpa [monitorInit] using h

/-- C5: evaluation of checkStatus at the failing inputs. On a rejected fetch
the catch handler calls updateSystemStatus(false); the switch matches no case
for a boolean, so the system indicator is left with its status classes
removed but without status-offline and with a stale title — it is not set to
offline as claimed (the network indicator is set to disconnected). On a
response with success = false neither indicator is updated at all: only the
synchronous camera re-emission happens. -/
theorem checkStatus_failure_divergence :
    ((StatusManager.checkStatus false StatusManager.StatusFetchResult.rejected
        indsOnline).system = some { cls := none, title := "System Online" })
  ∧ ((StatusManager.checkStatus false StatusManager.StatusFetchResult.rejected
        indsOnline).system ≠ some { cls := some SysClass.offline, title := "System Offline" })
  ∧ ((StatusManager.checkStatus false StatusManager.StatusFetchResult.rejected
        indsOnline).network = some { online := false, title := "Network Disconnected" })
  ∧ (StatusManager.checkStatus false
        (StatusManager.StatusFetchResult.response false "offline" false) indsOnline
      = StatusManager.updateCameraStatus false indsOnline) := by
  decide

/-- C6 counterexample: the claim that the periodic timers are cancelled while
the page is hidden is false. After the hidden transition both interval timers
are still armed, and a tick firing while hidden still invokes the respective
refresh. -/
theorem timers_not_cancelled_while_hidden :
    coordHidden.hidden = true
  ∧ coordHidden.eventsTimerActive = true
  ∧ coordHidden.statusTimerActive = true
  ∧ (coordStep coordHidden CoordEvent.eventsTick).2 = [CoordAction.callRefreshRecentEvents]
  ∧ (coordStep coordHidden CoordEvent.statusTick).2 = [CoordAction.callCheckStatus] := by
  decide

/-- C6 amended: on the hidden-to-visible transition the handler issues
exactly one immediate event refresh and one immediate status check (in that
order), but the periodic timers are untouched by visibility transitions in
either direction: they are never cancelled while hidden and never restarted
on becoming visible. -/
theorem visibility_visible_exactly_one_refresh (s : CoordState) :
    (coordStep s (CoordEvent.visibilityChange false)).2
        = [CoordAction.callRefreshRecentEvents, CoordAction.callCheckStatus]
  ∧ (coordStep s (CoordEvent.visibilityChange false)).1.eventsTimerActive = s.eventsTimerActive
  ∧ (coordStep s (CoordEvent.visibilityChange false)).1.statusTimerActive = s.statusTimerActive
  ∧ (coordStep s (CoordEvent.visibilityChange true)).2 = []
  ∧ (coordStep s (CoordEvent.visibilityChange true)).1.eventsTimerActive = s.eventsTimerActive
  ∧ (coordStep s (CoordEvent.visibilityChange true)).1.statusTimerActive = s.statusTimerActive :=
  ⟨rfl, rfl, rfl, rfl, rfl, rfl⟩

/-- C7 counterexample: the claim that a direction value other than IN and OUT
renders a distinct unknown-direction fallback is false. A record with
direction UNKNOWN renders exactly as the same record with direction OUT,
with the neutral bg-secondary Clock Out badge. -/
theorem unknown_direction_rendered_as_out :
    renderEvent sampleDate recUnknown = renderEvent sampleDate recOut
  ∧ (renderEvent sampleDate recUnknown).badge
      = { cssClass := "bg-secondary", text := "Clock Out" } := by
  decide

/-- C7 amended: a record whose date portion equals the current date renders
with the time-only Today label and any other date with the full date-time
label; direction IN renders the affirmative bg-success Clock In badge, and
every other direction value — OUT or unknown alike — renders the neutral
bg-secondary Clock Out badge, identically to OUT; there is no separate
unknown-direction fallback. -/
theorem render_event_rules (now : CalDate) (e : EventRecord) :
    ((renderEvent now e).timeStr
        = if e.date = now then "Today, " ++ e.time
          else calDateString e.date ++ ", " ++ e.time)
  ∧ (e.event = "IN" →
      (renderEvent now e).badge = { cssClass := "bg-success", text := "Clock In" })
  ∧ (e.event ≠ "IN" →
      (renderEvent now e).badge = { cssClass := "bg-secondary", text := "Clock Out" })
  ∧ (e.event ≠ "IN" →
      renderEvent now e = renderEvent now { e with event := "OUT" }) := by
  refine ⟨rfl, ?_, ?_, ?_⟩
  · intro h; simp [renderEvent, h]
  · intro h; simp [renderEvent, h]
  · intro h
    have hout : ("OUT" : String) ≠ "IN" := by decide
    simp [renderEvent, h, hout]

/-- C7 witness: the amended badge rule applied to the concrete UNKNOWN
record. -/
theorem render_event_rules_witness :
    (renderEvent sampleDate recUnknown).badge
      = { cssClass := "bg-secondary", text := "Clock Out" } :=
  (render_event_rules sampleDate recUnknown).2.2.1 (by decide)

/-- C8: when the /api/logs fetch rejects, refreshRecentEvents leaves both the
stored recentEvents state and the rendered view exactly as they were; the
catch handler confines the error (the embedding is a total function whose
rejected branch performs no update), so nothing escapes the synchronizer. -/
theorem refresh_failure_preserves_state_and_view (els : Elements) (now : CalDate)
    (stored : List EventRecord) (disp : Display) :
    refreshRecentEvents els now LogsFetchResult.rejected stored disp = (stored, disp) := by
  rcases els with ⟨re, rc⟩
  cases re <;> simp [refreshRecentEvents]

/-- C9: a reconnect timer that fires after the stream has meanwhile connected
is a no-op: the expiry handler checks the current camera state and performs
no reload, arms no timer, emits no signal and changes nothing. -/
theorem stale_reconnect_timer_noop (cfg : Config) (connected : Nat → Bool)
    (attempts fire : Nat) (h : connected fire = true) :
    onReconnectTimerExpiry cfg connected attempts fire = [] := by
  simp [onReconnectTimerExpiry, h]

/-- C9 witness: a stale timer of the default configuration firing while
connected does nothing. -/
theorem stale_reconnect_timer_noop_witness :
    onReconnectTimerExpiry config (fun _ => true) 1 0 = [] :=
  stale_reconnect_timer_noop config (fun _ => true) 1 0 rfl

/-- C10: a successful /api/logs response with an empty events array makes
refreshRecentEvents replace the stored recentEvents state with the empty
list, while updateRecentEventsDisplay returns early on the empty list and
leaves the rendered feed and the recognition count unchanged — stored state
and displayed view diverge and no full replacement of the view happens. -/
theorem empty_success_replaces_state_not_view (els : Elements) (now : CalDate)
    (stored : List EventRecord) (disp : Display) (h : els.recentEvents = true) :
    refreshRecentEvents els now (LogsFetchResult.response true []) stored disp
      = ([], disp) := by
  simp [refreshRecentEvents, updateRecentEventsDisplay, h]

/-- C10 witness: with both elements present, a nonempty stored list and a
nonempty display, the empty successful response empties the stored state and
leaves the display untouched. -/
theorem empty_success_replaces_state_not_view_witness :
    refreshRecentEvents { recentEvents := true, recognitionCount := true } sampleDate
        (LogsFetchResult.response true []) [recOut] dispSample = ([], dispSample) :=
  empty_success_replaces_state_not_view
    { recentEvents := true, recognitionCount := true } sampleDate [recOut] dispSample rfl

end NewaySecurity
